import Mathlib

/-!
Verification of the transcription-to-subtitle pipeline of the ATGT
repository (`video_processor.py`, `main.py`).

The Python source is shallowly embedded: pure helpers become Lean
functions over `ℚ` (exact arithmetic in place of Python floats, with
Python's truncating `int()` and float `%`/`//` semantics made explicit);
the effectful orchestrator `process_video` and `transcribe_video` become
state-passing functions over an explicit file-system record plus an
environment of injected outcomes for each external operation, emitting a
trace of observable actions.
-/

namespace ATGT

/-- Python `int(x)` truncates toward zero. -/
def pyInt (x : ℚ) : ℤ := if 0 ≤ x then ⌊x⌋ else ⌈x⌉

/-- Python float floor division `a // b` (result as a float value). -/
def pyFloorDiv (a b : ℚ) : ℚ := (⌊a / b⌋ : ℤ)

/-- Python float modulo `a % b`: `a - b * (a // b)` (sign follows `b`). -/
def pyMod (a b : ℚ) : ℚ := a - b * (⌊a / b⌋ : ℤ)

/-- Python `str.strip()`: remove leading and trailing whitespace. -/
def pyStrip (s : String) : String :=
  ⟨((s.data.dropWhile Char.isWhitespace).reverse.dropWhile Char.isWhitespace).reverse⟩

/-- Python `str.lower()` (the language codes in play are ASCII). -/
def pyLower (s : String) : String :=
  ⟨s.data.map Char.toLower⟩

/-- Python `f"{n:0wd}"`: decimal rendering left-padded with zeros to width `w`. -/
def zpad (w : Nat) (n : ℤ) : String :=
  let s := toString n
  String.mk (List.replicate (w - s.length) '0') ++ s

/-- Embeds `VideoProcessor._format_timestamp` (video_processor.py:234-241):
`hours = int(seconds // 3600)`, `minutes = int((seconds % 3600) // 60)`,
`seconds = seconds % 60`, `milliseconds = int((seconds % 1) * 1000)`,
`seconds = int(seconds)`, rendered `HH:MM:SS,mmm` with f-string zero padding. -/
def _format_timestamp (seconds : ℚ) : String :=
  let hours : ℤ := pyInt (pyFloorDiv seconds 3600)
  let minutes : ℤ := pyInt (pyFloorDiv (pyMod seconds 3600) 60)
  let secs : ℚ := pyMod seconds 60
  let milliseconds : ℤ := pyInt (pyMod secs 1 * 1000)
  let secsWhole : ℤ := pyInt secs
  zpad 2 hours ++ ":" ++ zpad 2 minutes ++ ":" ++ zpad 2 secsWhole ++ "," ++ zpad 3 milliseconds

/-- The spec's rendering rule for a timestamp: the four already-computed
components rendered `HH:MM:SS,mmm`, zero-padded to 2/2/2/3 digits. -/
def srtRender (h m s ms : ℤ) : String :=
  zpad 2 h ++ ":" ++ zpad 2 m ++ ":" ++ zpad 2 s ++ "," ++ zpad 3 ms

/-- One recognized utterance (`segment["start"]`, `segment["end"]`,
`segment["text"]`).  `stop` stands for the `end` key (Lean keyword). -/
structure Segment where
  start : ℚ
  stop : ℚ
  text : String
deriving DecidableEq, Repr

/-- One block written to the `.srt` file: the index written by
`f.write(f"{i}\n")`, both formatted timestamps, and the trimmed text. -/
structure SrtEntry where
  index : Nat
  startTs : String
  stopTs : String
  text : String
deriving DecidableEq, Repr

/-- The loop body of `_write_srt` (video_processor.py:216-226):
`for i, segment in enumerate(segments, 1)` — the counter `i` advances on
every segment, while segments whose `text.strip()` is empty are skipped
(`continue`) after the counter already advanced. -/
def srtEntriesAux : Nat → List Segment → List SrtEntry
  | _, [] => []
  | i, seg :: rest =>
    if pyStrip seg.text = "" then srtEntriesAux (i + 1) rest
    else { index := i
           startTs := _format_timestamp seg.start
           stopTs := _format_timestamp seg.stop
           text := pyStrip seg.text } :: srtEntriesAux (i + 1) rest

/-- The entries emitted into the file by `_write_srt` for a given segment
list, in order. -/
def srtEntries (segments : List Segment) : List SrtEntry :=
  srtEntriesAux 1 segments

/-- Injected outcome of the file system for one `_write_srt` call:
everything succeeds, `open(output_path, "w")` itself raises (no file is
created), or the `open` succeeds — creating/truncating the file — and a
later `f.write` raises (modelled at the first write, so the created file
is left with zero complete entries). -/
inductive WriteMode
  | ok
  | failOpen
  | failWrite
deriving DecidableEq, Repr

/-- How a Python call ends: with a raised exception, or with a returned
boolean. -/
inductive WriteRun
  | raised
  | returned (b : Bool)
deriving DecidableEq, Repr

/-- Embeds `VideoProcessor._write_srt` (video_processor.py:208-232): the
whole body sits in `try`/`except Exception: return False`, so no exception
ever escapes.  Empty input returns `False` before any file is opened; a
failed `open` is caught and returns `False` with no file created; a write
failure after a successful `open` is caught and returns `False`, but the
opened (partial) file remains — unless every segment's text strips to
empty, in which case the loop performs no write at all and the call
returns `True` with an empty file.  Result: (how the call returned, the
file now at `output_path`, if any). -/
def _write_srt (segments : List Segment) (mode : WriteMode) :
    WriteRun × Option (List SrtEntry) :=
  if segments = [] then
    (WriteRun.returned false, none)
  else
    match mode with
    | WriteMode.failOpen => (WriteRun.returned false, none)
    | WriteMode.failWrite =>
      if srtEntries segments = [] then (WriteRun.returned true, some [])
      else (WriteRun.returned false, some [])
    | WriteMode.ok => (WriteRun.returned true, some (srtEntries segments))

/-- What `self.model.transcribe(...)` does on this call: raise, return a
non-dict, return a dict without a `segments` key, or return a dict whose
`segments` value is the given list (possibly empty). -/
inductive ModelOutcome
  | raises
  | notDict
  | noSegmentsField
  | returns (segments : List Segment)
deriving DecidableEq, Repr

/-- The two Google Drive destinations of `process_video`:
`OUTPUT_FOLDER_ID` and `TEXT_TRANSLATION_FOLDER_ID`. -/
inductive Dest
  | outputFolder
  | translationFolder
deriving DecidableEq, Repr

/-- The files a single `process_video` invocation can touch: the
downloaded video and the extracted `.wav` and generated `.srt` in the
cache directory, plus the archival copy in the local output directory. -/
inductive FileId
  | video
  | audio
  | srtCache
  | archiveCopy
deriving DecidableEq, Repr

/-- Local file-system state: which of the four files currently exist. -/
structure FS where
  video : Bool
  audio : Bool
  srtCache : Bool
  archiveCopy : Bool
deriving DecidableEq, Repr

/-- Observable operations performed by one invocation. -/
inductive Action
  | download
  | extractAudio
  | invokeModel
  | serialize (segments : List Segment)
  | archiveCopyAct
  | upload (d : Dest)
  | removeAttempt (f : FileId)
deriving DecidableEq, Repr

/-- Injected outcome of every external operation a `process_video`
invocation performs, plus the inputs it is given.  `outputExists` records
whether a matching subtitle already exists in the destination folder
(state of the remote drive). -/
structure Env where
  outputExists : Bool
  langCode : Option String
  downloadOk : Bool
  videoReadable : Bool
  audioWriteOk : Bool
  modelLoaded : Bool
  prepareOk : Bool
  modelOutcome : ModelOutcome
  writeMode : WriteMode
  copyOk : Bool
  outputFolderConfigured : Bool
  translationFolderConfigured : Bool
  uploadOk : Bool
  removeVideoOk : Bool
  removeAudioOk : Bool
  removeSrtOk : Bool
deriving DecidableEq, Repr

/-- Lines 61-68 of `process_video`: `language_info.get('code')` with
`if not lang_code: lang_code = 'en'` — both a missing code and an empty
string fall back to `'en'`. -/
def effectiveLang (code : Option String) : String :=
  match code with
  | none => "en"
  | some s => if s = "" then "en" else s

/-- The `finally` of `transcribe_video` (lines 180-186): if `audio_path`
was assigned and the file exists, `os.remove` it; a removal error is
logged and absorbed. -/
def audioCleanup (env : Env) (fs : FS) (audioSet : Bool) : FS × List Action :=
  if audioSet && fs.audio then
    if env.removeAudioOk then
      ({ fs with audio := false }, [Action.removeAttempt FileId.audio])
    else (fs, [Action.removeAttempt FileId.audio])
  else (fs, [])

/-- Result of the `try` body of `transcribe_video` before its `finally`:
whether an `.srt` path was returned, the file system, the trace, and
whether `audio_path` was assigned. -/
structure TBody where
  ok : Bool
  fs : FS
  tr : List Action
  audioSet : Bool
deriving DecidableEq, Repr

/-- Embeds the `try` body of `VideoProcessor.transcribe_video`
(video_processor.py:111-178).  Every failure path is caught by one of the
two `except Exception` handlers and becomes `return None` (`ok := false`).
`write_audiofile` may leave a (partial) audio file even when it raises, so
the audio file is recorded as created as soon as the call is attempted. -/
def transcribeBody (env : Env) (fs : FS) : TBody :=
  if !fs.video then
    -- os.path.isfile fails -> FileNotFoundError -> outer except
    ⟨false, fs, [], false⟩
  else if !env.videoReadable then
    -- VideoFileClip(video_path) raises; audio_path is still None
    ⟨false, fs, [], false⟩
  else
    -- audio_path assigned; write_audiofile creates the file, may raise
    let fs1 := { fs with audio := true }
    if !env.audioWriteOk then ⟨false, fs1, [Action.extractAudio], true⟩
    else if !env.modelLoaded then
      -- "WhisperX model not available" -> return None
      ⟨false, fs1, [Action.extractAudio], true⟩
    else if !env.prepareOk then
      -- prepare_audio raised -> outer except
      ⟨false, fs1, [Action.extractAudio], true⟩
    else
      match env.modelOutcome with
      | ModelOutcome.raises =>
        ⟨false, fs1, [Action.extractAudio, Action.invokeModel], true⟩
      | ModelOutcome.notDict =>
        ⟨false, fs1, [Action.extractAudio, Action.invokeModel], true⟩
      | ModelOutcome.noSegmentsField =>
        ⟨false, fs1, [Action.extractAudio, Action.invokeModel], true⟩
      | ModelOutcome.returns segments =>
        if segments = [] then
          -- "No segments were transcribed" -> return None
          ⟨false, fs1, [Action.extractAudio, Action.invokeModel], true⟩
        else
          -- segments handed to _write_srt verbatim; "if self._write_srt(...)"
          let res := _write_srt segments env.writeMode
          ⟨res.1 == WriteRun.returned true,
           { fs1 with srtCache := res.2.isSome },
           [Action.extractAudio, Action.invokeModel,
            Action.serialize segments], true⟩

/-- Embeds `VideoProcessor.transcribe_video`: the `try` body followed by
the audio-file `finally`.  Returns (srt path produced?, file system,
trace). -/
def transcribe_video (env : Env) (fs : FS) : Bool × FS × List Action :=
  let b := transcribeBody env fs
  let c := audioCleanup env b.fs b.audioSet
  (b.ok, c.1, b.tr ++ c.2)

/-- Embeds `VideoProcessor._cleanup_files(video_path, srt_path)`
(video_processor.py:307-315), as called from the `finally` of
`process_video`: `video_path` is always set by then, `srt_path` only when
transcription succeeded (`srtSet`).  Each existing file is removed inside
its own `try`; a removal error is logged and absorbed. -/
def _cleanup_files (env : Env) (fs : FS) (srtSet : Bool) : FS × List Action :=
  let (fs1, tr1) :=
    if fs.video then
      if env.removeVideoOk then
        ({ fs with video := false }, [Action.removeAttempt FileId.video])
      else (fs, [Action.removeAttempt FileId.video])
    else (fs, [])
  let (fs2, tr2) :=
    if srtSet && fs1.srtCache then
      if env.removeSrtOk then
        ({ fs1 with srtCache := false }, [Action.removeAttempt FileId.srtCache])
      else (fs1, [Action.removeAttempt FileId.srtCache])
    else (fs1, [])
  (fs2, tr1 ++ tr2)

/-- Result of the `try`/`except` of `process_video` before its `finally`:
the returned boolean, the file system, the trace, and whether `srt_path`
was assigned. -/
structure PBody where
  ret : Bool
  fs : FS
  tr : List Action
  srtSet : Bool
deriving DecidableEq, Repr

/-- Embeds the `try`/`except` of `VideoProcessor.process_video`
(video_processor.py:55-106).  Every raised exception is caught at line 104
and becomes `return False`.  `_download_file` opens the destination for
writing before downloading, so a (partial) video file exists in the cache
even when the download raises.  Note that `env.outputExists` is never
consulted: no output-existence check is performed. -/
def processBody (env : Env) : PBody :=
  let fs0 : FS := ⟨true, false, false, false⟩
  if !env.downloadOk then ⟨false, fs0, [Action.download], false⟩
  else
    let r := transcribe_video env fs0
    if !r.1 then
      -- raise Exception("Failed to create SRT file") -> except -> False
      ⟨false, r.2.1, Action.download :: r.2.2, false⟩
    else
      -- shutil.copy2 into the local output directory
      if !env.copyOk then
        -- copy2 raised -> except at line 104 -> return False, no upload
        ⟨false, r.2.1, Action.download :: r.2.2 ++ [Action.archiveCopyAct], true⟩
      else
        let fs2 := { r.2.1 with archiveCopy := true }
        let tr2 := Action.download :: r.2.2 ++ [Action.archiveCopyAct]
        if pyLower (effectiveLang env.langCode) = "nl" then
          if !env.outputFolderConfigured then ⟨false, fs2, tr2, true⟩
          else if env.uploadOk then
            ⟨true, fs2, tr2 ++ [Action.upload Dest.outputFolder], true⟩
          else
            ⟨false, fs2, tr2 ++ [Action.upload Dest.outputFolder], true⟩
        else
          if !env.translationFolderConfigured then ⟨false, fs2, tr2, true⟩
          else if env.uploadOk then
            ⟨true, fs2, tr2 ++ [Action.upload Dest.translationFolder], true⟩
          else
            ⟨false, fs2, tr2 ++ [Action.upload Dest.translationFolder], true⟩

/-- Embeds `VideoProcessor.process_video`: the `try`/`except` body
followed by the unconditional `finally: self._cleanup_files(video_path,
srt_path)`.  Returns (returned boolean, final file system, trace). -/
def process_video (env : Env) : Bool × FS × List Action :=
  let b := processBody env
  let c := _cleanup_files env b.fs b.srtSet
  (b.ret, c.1, b.tr ++ c.2)

/-- Embeds `VideoProcessor.check_existing_translation`
(video_processor.py:243-271) over the name lists of the two remote
folders: true iff either folder contains `stem_AI_Translated.srt` or
`stem.srt` (a query error is logged and treated as not found). -/
def check_existing_translation (stem : String)
    (outputFolder translationFolder : List String) : Bool :=
  outputFolder.contains (stem ++ "_AI_Translated.srt") ||
  outputFolder.contains (stem ++ ".srt") ||
  translationFolder.contains (stem ++ "_AI_Translated.srt") ||
  translationFolder.contains (stem ++ ".srt")

/-- All external operations succeed and the model returns a dict with a
non-empty segment list: the conditions under which `process_video`
reaches its routing step. -/
def allOk (env : Env) : Prop :=
  env.downloadOk = true ∧ env.videoReadable = true ∧
  env.audioWriteOk = true ∧ env.modelLoaded = true ∧ env.prepareOk = true ∧
  (∃ s rest, env.modelOutcome = ModelOutcome.returns (s :: rest)) ∧
  env.writeMode = WriteMode.ok ∧ env.copyOk = true ∧
  env.outputFolderConfigured = true ∧
  env.translationFolderConfigured = true ∧ env.uploadOk = true

/-- Five segments of which the third has whitespace-only text: the
concrete input exhibiting the writer's numbering behaviour. -/
def ex1 : List Segment :=
  [⟨0, 1, "a"⟩, ⟨1, 2, "b"⟩, ⟨2, 3, "  "⟩, ⟨3, 4, "d"⟩, ⟨4, 5, "e"⟩]

/-- A sample recognized segment. -/
def seg0 : Segment := ⟨0, 1, "hallo"⟩

/-- A run in which every external operation succeeds, the model returns
one segment, the language binding carries code "de", and — key for the
idempotence claim — a matching output already exists in the destination
folder (`outputExists := true`). -/
def envA : Env :=
  { outputExists := true, langCode := some "de", downloadOk := true,
    videoReadable := true, audioWriteOk := true, modelLoaded := true,
    prepareOk := true, modelOutcome := ModelOutcome.returns [seg0],
    writeMode := WriteMode.ok, copyOk := true, outputFolderConfigured := true,
    translationFolderConfigured := true, uploadOk := true,
    removeVideoOk := true, removeAudioOk := true, removeSrtOk := true }

/-- Same run, but `shutil.copy2` into the archive directory raises. -/
def envC4 : Env := { envA with copyOk := false }

/-- Same run with an upper-case Dutch language code. -/
def envNL : Env := { envA with langCode := some "NL" }

/-- Same run, but the model invocation raises. -/
def envMalformed : Env := { envA with modelOutcome := ModelOutcome.raises }

/-- Same run, but a write into the already-opened subtitle file raises:
the cache holds a partial `.srt` while `_write_srt` returns `False`. -/
def envC7 : Env := { envA with writeMode := WriteMode.failWrite }


/-! ### Arithmetic facts about the Python helpers -/

theorem pyInt_intCast (n : ℤ) : pyInt (n : ℚ) = n := by
  unfold pyInt; split
  · exact Int.floor_intCast n
  · exact Int.ceil_intCast n

theorem pyInt_eq_floor {x : ℚ} (hx : 0 ≤ x) : pyInt x = ⌊x⌋ := if_pos hx

theorem pyMod_eq_fract (a : ℚ) {b : ℚ} (hb : b ≠ 0) :
    pyMod a b = b * Int.fract (a / b) := by
  have h : b * (a / b) = a := by field_simp
  unfold pyMod Int.fract
  rw [mul_sub, h]

theorem pyMod_nonneg (a : ℚ) {b : ℚ} (hb : 0 < b) : 0 ≤ pyMod a b := by
  rw [pyMod_eq_fract a hb.ne.symm]
  exact mul_nonneg hb.le (Int.fract_nonneg _)

theorem pyMod_lt (a : ℚ) {b : ℚ} (hb : 0 < b) : pyMod a b < b := by
  rw [pyMod_eq_fract a hb.ne.symm]
  calc b * Int.fract (a / b) < b * 1 :=
        mul_lt_mul_of_pos_left (Int.fract_lt_one _) hb
    _ = b := mul_one b

theorem pyMod_one (a : ℚ) : pyMod a 1 = Int.fract a := by
  unfold pyMod Int.fract; simp

theorem pyMod_pyMod_one (s : ℚ) : pyMod (pyMod s 60) 1 = pyMod s 1 := by
  rw [pyMod_one, pyMod_one]
  show Int.fract (pyMod s 60) = Int.fract s
  unfold pyMod
  have h : (60 : ℚ) * (⌊s / 60⌋ : ℤ) = ((60 * ⌊s / 60⌋ : ℤ) : ℚ) := by
    push_cast; ring
  rw [h, Int.fract_sub_int]

/-! ### Structure of the emitted subtitle entries -/

theorem srtEntriesAux_length (segments : List Segment) : ∀ i : Nat,
    (srtEntriesAux i segments).length =
      (segments.filter (fun s => !(pyStrip s.text == ""))).length := by
  induction segments with
  | nil => intro i; rfl
  | cons seg rest ih =>
    intro i
    by_cases h : pyStrip seg.text = ""
    · simp [srtEntriesAux, h, List.filter_cons, ih]
    · simp [srtEntriesAux, h, List.filter_cons, ih]

theorem srtEntriesAux_mem_spec (segments : List Segment) : ∀ (i : Nat) (e : SrtEntry),
    e ∈ srtEntriesAux i segments →
    ∃ j, j < segments.length ∧ e.index = i + j ∧
      pyStrip (segments.getD j ⟨0, 0, ""⟩).text ≠ "" ∧
      e.text = pyStrip (segments.getD j ⟨0, 0, ""⟩).text := by
  induction segments with
  | nil => intro i e h; simp [srtEntriesAux] at h
  | cons seg rest ih =>
    intro i e he
    by_cases h : pyStrip seg.text = ""
    · rw [srtEntriesAux, if_pos h] at he
      obtain ⟨j, hj, hidx, hne, htxt⟩ := ih (i + 1) e he
      refine ⟨j + 1, by simpa using Nat.succ_lt_succ hj, by omega, ?_, ?_⟩
      · simpa [List.getD_cons_succ] using hne
      · simpa [List.getD_cons_succ] using htxt
    · rw [srtEntriesAux, if_neg h] at he
      rcases List.mem_cons.mp he with he | he
      · subst he
        exact ⟨0, by simp, by simp, by simpa using h, by simp⟩
      · obtain ⟨j, hj, hidx, hne, htxt⟩ := ih (i + 1) e he
        refine ⟨j + 1, by simpa using Nat.succ_lt_succ hj, by omega, ?_, ?_⟩
        · simpa [List.getD_cons_succ] using hne
        · simpa [List.getD_cons_succ] using htxt

theorem srtEntriesAux_eq_nil (segments : List Segment)
    (h : ∀ s ∈ segments, pyStrip s.text = "") :
    ∀ i : Nat, srtEntriesAux i segments = [] := by
  induction segments with
  | nil => intro i; rfl
  | cons seg rest ih =>
    intro i
    rw [srtEntriesAux, if_pos (h seg (List.mem_cons_self seg rest))]
    exact ih (fun s hs => h s (List.mem_cons_of_mem seg hs)) (i + 1)

/-! ### Structural facts about the orchestrator embedding -/

theorem tv_eq (env : Env) (fs : FS) :
    transcribe_video env fs =
      ((transcribeBody env fs).ok,
       (audioCleanup env (transcribeBody env fs).fs (transcribeBody env fs).audioSet).1,
       (transcribeBody env fs).tr ++
         (audioCleanup env (transcribeBody env fs).fs (transcribeBody env fs).audioSet).2) := rfl

theorem ac_video (env : Env) (fs : FS) (a : Bool) :
    (audioCleanup env fs a).1.video = fs.video := by
  unfold audioCleanup; (repeat' split) <;> rfl

theorem ac_srt (env : Env) (fs : FS) (a : Bool) :
    (audioCleanup env fs a).1.srtCache = fs.srtCache := by
  unfold audioCleanup; (repeat' split) <;> rfl

theorem ac_audio (env : Env) (fs : FS) (a : Bool)
    (hra : env.removeAudioOk = true) (h : fs.audio = true → a = true) :
    (audioCleanup env fs a).1.audio = false := by
  unfold audioCleanup
  cases hfa : fs.audio with
  | false => cases a <;> simp [hfa, hra]
  | true => simp [hfa, h hfa, hra]

theorem ac_actions (env : Env) (fs : FS) (a : Bool) :
    ∀ x ∈ (audioCleanup env fs a).2, x = Action.removeAttempt FileId.audio := by
  unfold audioCleanup; (repeat' split) <;> simp

theorem hac1 (env : Env) :
    (audioCleanup env (⟨true, true, true, false⟩ : FS) true).1 =
      ⟨true, !env.removeAudioOk, true, false⟩ := by
  cases hro : env.removeAudioOk <;> simp [audioCleanup, hro]

theorem hac2 (env : Env) :
    (audioCleanup env (⟨true, true, true, false⟩ : FS) true).2 =
      [Action.removeAttempt FileId.audio] := by
  cases hro : env.removeAudioOk <;> simp [audioCleanup, hro]

theorem cf_video (env : Env) (fs : FS) (s : Bool) (h : env.removeVideoOk = true) :
    (_cleanup_files env fs s).1.video = false := by
  unfold _cleanup_files
  cases hv : fs.video <;> cases hs : s <;>
    (try simp [hv, hs]) <;> (repeat' split) <;> simp_all

theorem cf_srt (env : Env) (fs : FS) (s : Bool) (h : env.removeSrtOk = true)
    (h2 : fs.srtCache = true → s = true) :
    (_cleanup_files env fs s).1.srtCache = false := by
  unfold _cleanup_files
  cases hc : fs.srtCache with
  | false =>
    cases hv : fs.video <;> cases hs : s <;>
      (try simp [h, hv, hs, hc]) <;> (repeat' split) <;> simp_all
  | true =>
    cases hv : fs.video <;>
      (try simp [h, hv, hc, h2 hc]) <;> (repeat' split) <;> simp_all

theorem cf_audio (env : Env) (fs : FS) (s : Bool) :
    (_cleanup_files env fs s).1.audio = fs.audio := by
  unfold _cleanup_files
  cases hv : fs.video <;> cases hs : s <;>
    (try simp [hv, hs]) <;> (repeat' split) <;> simp_all

theorem cf_archive (env : Env) (fs : FS) (s : Bool) :
    (_cleanup_files env fs s).1.archiveCopy = fs.archiveCopy := by
  unfold _cleanup_files
  cases hv : fs.video <;> cases hs : s <;>
    (try simp [hv, hs]) <;> (repeat' split) <;> simp_all

theorem cf_actions (env : Env) (fs : FS) (s : Bool) :
    ∀ x ∈ (_cleanup_files env fs s).2,
      x = Action.removeAttempt FileId.video ∨
      x = Action.removeAttempt FileId.srtCache := by
  unfold _cleanup_files
  cases hv : fs.video <;> cases hs : s <;>
    (try simp [hv, hs]) <;> (repeat' split) <;> simp_all

theorem cf_attempt_video (env : Env) (fs : FS) (s : Bool) (hv : fs.video = true) :
    Action.removeAttempt FileId.video ∈ (_cleanup_files env fs s).2 := by
  unfold _cleanup_files
  cases hrv : env.removeVideoOk <;> simp [hv, hrv]

theorem tb_video (env : Env) (fs : FS) :
    (transcribeBody env fs).fs.video = fs.video := by
  unfold transcribeBody
  (repeat' split) <;> simp_all

theorem tb_audio (env : Env) (fs : FS) (h : fs.audio = false) :
    (transcribeBody env fs).fs.audio = (transcribeBody env fs).audioSet := by
  unfold transcribeBody
  (repeat' split) <;> simp_all

theorem tb_srt (env : Env) (fs : FS) (h : fs.srtCache = false)
    (hwm : env.writeMode ≠ WriteMode.failWrite)
    (h2 : (transcribeBody env fs).fs.srtCache = true) :
    (transcribeBody env fs).ok = true := by
  unfold transcribeBody at h2 ⊢
  cases hwo : env.writeMode with
  | failWrite => exact absurd hwo hwm
  | ok => (repeat' split) <;> simp_all [_write_srt]
  | failOpen => (repeat' split) <;> simp_all [_write_srt]

theorem tb_no_upload (env : Env) (fs : FS) :
    ∀ d, Action.upload d ∉ (transcribeBody env fs).tr := by
  unfold transcribeBody
  (repeat' split) <;> simp_all

theorem tb_no_remove (env : Env) (fs : FS) :
    ∀ f, Action.removeAttempt f ∉ (transcribeBody env fs).tr := by
  unfold transcribeBody
  (repeat' split) <;> simp_all

theorem tb_ok_eq (env : Env) (fs : FS) (hv : fs.video = true)
    (h1 : env.videoReadable = true) (h2 : env.audioWriteOk = true)
    (h3 : env.modelLoaded = true) (h4 : env.prepareOk = true)
    (segs : List Segment) (hmo : env.modelOutcome = ModelOutcome.returns segs)
    (hne : segs ≠ []) (hwm : env.writeMode = WriteMode.ok) :
    transcribeBody env fs =
      ⟨true, ⟨fs.video, true, true, fs.archiveCopy⟩,
       [Action.extractAudio, Action.invokeModel, Action.serialize segs], true⟩ := by
  unfold transcribeBody
  simp [hv, h1, h2, h3, h4, hmo, hne, hwm, _write_srt]

theorem tb_invalid (env : Env) (fs : FS) (hv : fs.video = true)
    (h1 : env.videoReadable = true) (h2 : env.audioWriteOk = true)
    (h3 : env.modelLoaded = true) (h4 : env.prepareOk = true)
    (hmo : env.modelOutcome = ModelOutcome.raises ∨
      env.modelOutcome = ModelOutcome.notDict ∨
      env.modelOutcome = ModelOutcome.noSegmentsField ∨
      env.modelOutcome = ModelOutcome.returns []) :
    transcribeBody env fs =
      ⟨false, ⟨fs.video, true, fs.srtCache, fs.archiveCopy⟩,
       [Action.extractAudio, Action.invokeModel], true⟩ := by
  rcases hmo with hmo | hmo | hmo | hmo <;>
    (unfold transcribeBody; simp [hv, h1, h2, h3, h4, hmo])

theorem tb_tr_returns (env : Env) (fs : FS) (hv : fs.video = true)
    (h1 : env.videoReadable = true) (h2 : env.audioWriteOk = true)
    (h3 : env.modelLoaded = true) (h4 : env.prepareOk = true)
    (segs : List Segment) (hmo : env.modelOutcome = ModelOutcome.returns segs)
    (hne : segs ≠ []) :
    (transcribeBody env fs).tr =
      [Action.extractAudio, Action.invokeModel, Action.serialize segs] := by
  unfold transcribeBody
  simp [hv, h1, h2, h3, h4, hmo, hne]

theorem tb_env_indep (env : Env) (b1 b2 b3 : Bool) (fs : FS) :
    transcribeBody { env with removeVideoOk := b1, removeAudioOk := b2, removeSrtOk := b3 } fs = transcribeBody env fs := rfl

theorem tv_no_upload (env : Env) (fs : FS) :
    ∀ d, Action.upload d ∉ (transcribe_video env fs).2.2 := by
  intro d hd
  rw [tv_eq] at hd
  rcases List.mem_append.mp hd with hmem | hmem
  · exact tb_no_upload env fs d hmem
  · exact absurd (ac_actions env _ _ _ hmem) (by simp)

theorem tv_no_remove_archive (env : Env) (fs : FS) :
    ∀ x ∈ (transcribe_video env fs).2.2, x ≠ Action.removeAttempt FileId.archiveCopy := by
  intro x hx
  rw [tv_eq] at hx
  rcases List.mem_append.mp hx with hm | hm
  · intro hcontra; subst hcontra; exact tb_no_remove env fs _ hm
  · have := ac_actions env _ _ _ hm; simp [this]

theorem pb_video (env : Env) : (processBody env).fs.video = true := by
  unfold processBody
  (repeat' split) <;> try simp_all [tv_eq, ac_video, tb_video]
  all_goals ((repeat' split) <;> simp_all [tv_eq, ac_video, tb_video])

theorem pb_audio (env : Env) (hra : env.removeAudioOk = true) :
    (processBody env).fs.audio = false := by
  have h1 : (transcribeBody env ⟨true, false, false, false⟩).fs.audio =
      (transcribeBody env ⟨true, false, false, false⟩).audioSet :=
    tb_audio env ⟨true, false, false, false⟩ rfl
  have h2 : (audioCleanup env (transcribeBody env ⟨true, false, false, false⟩).fs
      (transcribeBody env ⟨true, false, false, false⟩).audioSet).1.audio = false :=
    ac_audio env _ _ hra (fun hh => h1 ▸ hh)
  unfold processBody
  (repeat' split) <;> try simp_all [tv_eq]
  all_goals ((repeat' split) <;> simp_all [tv_eq])

theorem pb_srt_inv (env : Env) (hwm : env.writeMode ≠ WriteMode.failWrite)
    (h : (processBody env).fs.srtCache = true) :
    (processBody env).srtSet = true := by
  have hsc : (audioCleanup env (transcribeBody env ⟨true, false, false, false⟩).fs
      (transcribeBody env ⟨true, false, false, false⟩).audioSet).1.srtCache =
      (transcribeBody env ⟨true, false, false, false⟩).fs.srtCache := ac_srt env _ _
  have hst : (transcribeBody env ⟨true, false, false, false⟩).fs.srtCache = true →
      (transcribeBody env ⟨true, false, false, false⟩).ok = true :=
    tb_srt env ⟨true, false, false, false⟩ rfl hwm
  unfold processBody at h ⊢
  revert h
  (repeat' split) <;> try simp_all [tv_eq]
  all_goals ((repeat' split) <;> simp_all [tv_eq])

theorem pb_ret_indep (env : Env) (b1 b2 b3 : Bool) :
    (processBody { env with removeVideoOk := b1, removeAudioOk := b2, removeSrtOk := b3 }).ret = (processBody env).ret := by
  have htb := tb_env_indep env b1 b2 b3 (⟨true, false, false, false⟩ : FS)
  unfold processBody
  (repeat' split) <;> try simp_all [tv_eq, htb]
  all_goals ((repeat' split) <;> simp_all [tv_eq, htb])

theorem pb_tr_sub (env : Env) (x : Action) (hx : x ∈ (processBody env).tr) :
    x = Action.download ∨ x ∈ (transcribe_video env ⟨true, false, false, false⟩).2.2 ∨
    x = Action.archiveCopyAct ∨ x = Action.upload Dest.outputFolder ∨
    x = Action.upload Dest.translationFolder := by
  unfold processBody at hx
  cases htv : (transcribe_video env (⟨true, false, false, false⟩ : FS)).1 <;>
    simp only [htv, Bool.not_true, Bool.not_false] at hx <;> revert hx <;> (repeat' split) <;>
      (intro hx; simp only [Bool.not_true, Bool.not_false,
        List.mem_cons, List.mem_append, List.mem_singleton] at hx; tauto)

theorem pb_allOk (env : Env) (h : allOk env) :
    ∃ segs : List Segment, env.modelOutcome = ModelOutcome.returns segs ∧ segs ≠ [] ∧
      processBody env =
        ⟨true, ⟨true, !env.removeAudioOk, true, true⟩,
         [Action.download, Action.extractAudio, Action.invokeModel,
          Action.serialize segs, Action.removeAttempt FileId.audio,
          Action.archiveCopyAct,
          Action.upload (if pyLower (effectiveLang env.langCode) = "nl"
            then Dest.outputFolder else Dest.translationFolder)], true⟩ := by
  obtain ⟨hd, hv, ha, hm, hp, ⟨s, rest, hmo⟩, hwm, hc, hof, htf, hu⟩ := h
  refine ⟨s :: rest, hmo, by simp, ?_⟩
  have htb := tb_ok_eq env ⟨true, false, false, false⟩ rfl hv ha hm hp
    (s :: rest) hmo (by simp) hwm
  unfold processBody
  simp only [tv_eq, htb]
  simp [hd, hc, hof, htf, hu, hac1, hac2]
  by_cases hl : pyLower (effectiveLang env.langCode) = "nl" <;> simp [hl]

theorem pb_copyFail (env : Env) (hd : env.downloadOk = true)
    (h1 : env.videoReadable = true) (h2 : env.audioWriteOk = true)
    (h3 : env.modelLoaded = true) (h4 : env.prepareOk = true)
    (segs : List Segment) (hmo : env.modelOutcome = ModelOutcome.returns segs)
    (hne : segs ≠ []) (hwm : env.writeMode = WriteMode.ok)
    (hc : env.copyOk = false) :
    processBody env =
      ⟨false, ⟨true, !env.removeAudioOk, true, false⟩,
       [Action.download, Action.extractAudio, Action.invokeModel,
        Action.serialize segs, Action.removeAttempt FileId.audio,
        Action.archiveCopyAct], true⟩ := by
  have htb := tb_ok_eq env ⟨true, false, false, false⟩ rfl h1 h2 h3 h4 segs hmo hne hwm
  unfold processBody
  simp only [tv_eq, htb]
  simp [hd, hc, hac1, hac2]


/-! ### Claim theorems -/

/-- C1 (counterexample): on five segments whose third has whitespace-only
text, `_write_srt` numbers the four emitted entries 1, 2, 4, 5 — the
index of each entry is its segment's original position, so the numbering
is NOT contiguous from 1 as the claim states. -/
theorem write_srt_index_counterexample :
    (srtEntries ex1).map SrtEntry.index = [1, 2, 4, 5] ∧
    (srtEntries ex1).length = 4 ∧
    (srtEntries ex1).map SrtEntry.index ≠ List.range' 1 (srtEntries ex1).length := by
  refine ⟨by decide, by decide, by decide⟩

/-- C1 (amended): the writer emits one entry per segment with non-empty
stripped text (so the entry count part of the claim holds), but each
entry's index is `1 + j` where `j` is the segment's original 0-based
position — `enumerate(segments, 1)` advances the counter on skipped
segments too, leaving gaps instead of renumbering contiguously. -/
theorem write_srt_index_amended (segments : List Segment) :
    (srtEntries segments).length =
      (segments.filter (fun s => !(pyStrip s.text == ""))).length ∧
    ∀ k, k < (srtEntries segments).length →
      ∃ j, j < segments.length ∧
        ((srtEntries segments).getD k ⟨0, "", "", ""⟩).index = 1 + j ∧
        pyStrip (segments.getD j ⟨0, 0, ""⟩).text ≠ "" ∧
        ((srtEntries segments).getD k ⟨0, "", "", ""⟩).text =
          pyStrip (segments.getD j ⟨0, 0, ""⟩).text := by
  refine ⟨srtEntriesAux_length segments 1, ?_⟩
  intro k hk
  have hmem : (srtEntries segments).getD k ⟨0, "", "", ""⟩ ∈ srtEntries segments := by
    rw [List.getD_eq_getElem _ _ hk]
    exact List.getElem_mem hk
  exact srtEntriesAux_mem_spec segments 1 _ hmem

/-- C1 (witness): the third emitted entry for `ex1` (position 2) comes
from an original segment position `j` with matching stripped text. -/
theorem write_srt_index_amended_witness :
    ∃ j, j < ex1.length ∧
      ((srtEntries ex1).getD 2 ⟨0, "", "", ""⟩).index = 1 + j ∧
      pyStrip (ex1.getD j ⟨0, 0, ""⟩).text ≠ "" ∧
      ((srtEntries ex1).getD 2 ⟨0, "", "", ""⟩).text =
        pyStrip (ex1.getD j ⟨0, 0, ""⟩).text :=
  (write_srt_index_amended ex1).2 2 (by decide)

/-- C2: for any non-negative seconds value, `_format_timestamp` renders
exactly `floor(s/3600)`, `floor((s mod 3600)/60)`, `floor(s mod 60)` and
`floor((s mod 1) * 1000)` as `HH:MM:SS,mmm` with 2/2/2/3-digit zero
padding; the millisecond component truncates and stays in [0, 999]
(never rolling over to 1000); and the three sample values of the spec
evaluate as stated. -/
theorem format_timestamp_spec (s : ℚ) (hs : 0 ≤ s) :
    _format_timestamp s =
      srtRender ⌊s / 3600⌋ ⌊pyMod s 3600 / 60⌋ ⌊pyMod s 60⌋ ⌊pyMod s 1 * 1000⌋ ∧
    0 ≤ ⌊pyMod s 1 * 1000⌋ ∧ ⌊pyMod s 1 * 1000⌋ ≤ 999 ∧
    _format_timestamp 0 = "00:00:00,000" ∧
    _format_timestamp (7323 / 2) = "01:01:01,500" ∧
    _format_timestamp (599999 / 10000) = "00:00:59,999" := by
  have hms0 : (0 : ℚ) ≤ pyMod s 1 := pyMod_nonneg s one_pos
  have hms1 : pyMod s 1 < 1 := pyMod_lt s one_pos
  refine ⟨?_, ?_, ?_, ?_, ?_, ?_⟩
  · simp only [_format_timestamp, srtRender]
    rw [show pyInt (pyFloorDiv s 3600) = ⌊s / 3600⌋ by
          unfold pyFloorDiv; exact pyInt_intCast _,
        show pyInt (pyFloorDiv (pyMod s 3600) 60) = ⌊pyMod s 3600 / 60⌋ by
          unfold pyFloorDiv; exact pyInt_intCast _,
        show pyInt (pyMod s 60) = ⌊pyMod s 60⌋ from
          pyInt_eq_floor (pyMod_nonneg s (by norm_num)),
        show pyInt (pyMod (pyMod s 60) 1 * 1000) = ⌊pyMod s 1 * 1000⌋ by
          rw [pyMod_pyMod_one]
          exact pyInt_eq_floor (mul_nonneg hms0 (by norm_num))]
  · exact Int.floor_nonneg.mpr (mul_nonneg hms0 (by norm_num))
  · have hlt : pyMod s 1 * 1000 < 1000 := by nlinarith
    have h2 : ⌊pyMod s 1 * 1000⌋ < 1000 := Int.floor_lt.mpr (by exact_mod_cast hlt)
    omega
  · norm_num [_format_timestamp, pyInt, pyFloorDiv, pyMod, zpad]; rfl
  · norm_num [_format_timestamp, pyInt, pyFloorDiv, pyMod, zpad]; rfl
  · norm_num [_format_timestamp, pyInt, pyFloorDiv, pyMod, zpad]; rfl

/-- C2 (witness): the theorem applied at 3661.5 seconds. -/
theorem format_timestamp_spec_witness :
    _format_timestamp (7323 / 2) =
      srtRender ⌊(7323 / 2 : ℚ) / 3600⌋ ⌊pyMod (7323 / 2) 3600 / 60⌋
        ⌊pyMod (7323 / 2) 60⌋ ⌊pyMod (7323 / 2) 1 * 1000⌋ :=
  (format_timestamp_spec (7323 / 2) (by norm_num)).1

/-- C3: `process_video` performs no output-existence check.  Its entire
behaviour is independent of whether a matching output already exists
(`outputExists`), and on a run where the output does exist and every
operation succeeds it still downloads, invokes the model and uploads —
even though the (never-called) `check_existing_translation` would have
reported the existing file.  The claimed no-op re-run does not happen. -/
theorem process_video_no_existing_output_check :
    (∀ (env : Env) (b : Bool),
      process_video { env with outputExists := b } = process_video env) ∧
    check_existing_translation "talk" ["talk.srt"] [] = true ∧
    envA.outputExists = true ∧
    (process_video envA).1 = true ∧
    Action.download ∈ (process_video envA).2.2 ∧
    Action.invokeModel ∈ (process_video envA).2.2 ∧
    Action.upload Dest.translationFolder ∈ (process_video envA).2.2 :=
  ⟨fun env b => rfl, by decide, by decide, by decide, by decide, by decide, by decide⟩

/-- C4 (counterexample): when the archival copy (`shutil.copy2`) fails
and everything else succeeds, `process_video` returns failure and never
uploads — the failure is not advisory, contradicting the claim that the
file still proceeds to upload with a successful outcome. -/
theorem archival_failure_counterexample :
    (process_video envC4).1 = false ∧
    Action.upload Dest.outputFolder ∉ (process_video envC4).2.2 ∧
    Action.upload Dest.translationFolder ∉ (process_video envC4).2.2 := by
  refine ⟨by decide, by decide, by decide⟩

/-- C4 (amended): a failure of the archival copy is caught only by the
orchestrator's top-level handler: the invocation returns failure, no
upload of any kind is performed, and the `finally` cleanup still runs
(the cached video's removal is attempted). -/
theorem archival_failure_amended (env : Env) (hd : env.downloadOk = true)
    (h1 : env.videoReadable = true) (h2 : env.audioWriteOk = true)
    (h3 : env.modelLoaded = true) (h4 : env.prepareOk = true)
    (segs : List Segment) (hmo : env.modelOutcome = ModelOutcome.returns segs)
    (hne : segs ≠ []) (hwm : env.writeMode = WriteMode.ok)
    (hc : env.copyOk = false) :
    (process_video env).1 = false ∧
    (∀ d, Action.upload d ∉ (process_video env).2.2) ∧
    Action.removeAttempt FileId.video ∈ (process_video env).2.2 := by
  have hpb := pb_copyFail env hd h1 h2 h3 h4 segs hmo hne hwm hc
  have htr : (process_video env).2.2 = (processBody env).tr ++
      (_cleanup_files env (processBody env).fs (processBody env).srtSet).2 := rfl
  refine ⟨?_, ?_, ?_⟩
  · show (processBody env).ret = false
    rw [hpb]
  · intro d hd2
    rw [htr] at hd2
    rcases List.mem_append.mp hd2 with hm | hm
    · rw [hpb] at hm; simp at hm
    · rcases cf_actions env _ _ _ hm with hh | hh <;> exact Action.noConfusion hh
  · rw [htr]
    refine List.mem_append.mpr (Or.inr ?_)
    apply cf_attempt_video
    rw [hpb]

/-- C4 (witness): the amended theorem applied at the concrete failing
run `envC4`. -/
theorem archival_failure_amended_witness :
    (process_video envC4).1 = false ∧
    Action.removeAttempt FileId.video ∈ (process_video envC4).2.2 :=
  ⟨(archival_failure_amended envC4 rfl rfl rfl rfl rfl [seg0] rfl
      (by simp) rfl rfl).1,
   (archival_failure_amended envC4 rfl rfl rfl rfl rfl [seg0] rfl
      (by simp) rfl rfl).2.2⟩

/-- C5 (counterexample): when opening the output file fails on a
non-empty segment list, `_write_srt` raises nothing — it returns the
plain failure flag `false`, exactly like the empty-input case — so the
failure is swallowed, not surfaced as an `IOFailure`. -/
theorem write_srt_io_counterexample :
    (_write_srt [⟨0, 1, "hi"⟩] WriteMode.failOpen).1 ≠ WriteRun.raised ∧
    _write_srt [⟨0, 1, "hi"⟩] WriteMode.failOpen = (WriteRun.returned false, none) ∧
    _write_srt [] WriteMode.ok = (WriteRun.returned false, none) := by
  refine ⟨by decide, by decide, by decide⟩

/-- C5 (amended): `_write_srt` catches every exception internally: no
call ever ends in a raised exception, and an open failure is converted
into the plain `false` return with no file created. -/
theorem write_srt_io_amended (segments : List Segment) (mode : WriteMode) :
    (_write_srt segments mode).1 ≠ WriteRun.raised ∧
    _write_srt segments WriteMode.failOpen = (WriteRun.returned false, none) := by
  constructor
  · cases mode <;> by_cases h : segments = [] <;>
      simp [_write_srt, h] <;> split <;> simp
  · by_cases h : segments = [] <;> simp [_write_srt, h]

/-- C5 (witness): the amended theorem applied at a concrete one-segment
input with a failing open. -/
theorem write_srt_io_amended_witness :
    (_write_srt [seg0] WriteMode.failOpen).1 ≠ WriteRun.raised ∧
    _write_srt [seg0] WriteMode.failOpen = (WriteRun.returned false, none) :=
  write_srt_io_amended [seg0] WriteMode.failOpen

/-- C6: under a run that reaches the routing step, the subtitle is
uploaded to the output destination exactly when the effective language
code lowercases to "nl", and to the translation-intake destination
otherwise; a missing code becomes the fallback "en", which routes to the
translation-intake destination. -/
theorem routing_by_language (env : Env) (h : allOk env) :
    ((Action.upload Dest.outputFolder ∈ (process_video env).2.2) ↔
      pyLower (effectiveLang env.langCode) = "nl") ∧
    ((Action.upload Dest.translationFolder ∈ (process_video env).2.2) ↔
      ¬pyLower (effectiveLang env.langCode) = "nl") ∧
    (env.langCode = none → effectiveLang env.langCode = "en" ∧
      Action.upload Dest.translationFolder ∈ (process_video env).2.2) := by
  obtain ⟨segs, hmo, hne, hpb⟩ := pb_allOk env h
  have hnoup : ∀ d, Action.upload d ∉
      (_cleanup_files env (processBody env).fs (processBody env).srtSet).2 := by
    intro d hd
    rcases cf_actions env _ _ _ hd with hh | hh <;> exact Action.noConfusion hh
  have htr : (process_video env).2.2 = (processBody env).tr ++
      (_cleanup_files env (processBody env).fs (processBody env).srtSet).2 := rfl
  have hmem : ∀ d, (Action.upload d ∈ (process_video env).2.2) ↔
      Action.upload d ∈ (processBody env).tr := by
    intro d
    rw [htr, List.mem_append]
    constructor
    · rintro (hh | hh)
      · exact hh
      · exact absurd hh (hnoup d)
    · exact Or.inl
  have htrl := congrArg PBody.tr hpb
  by_cases hl : pyLower (effectiveLang env.langCode) = "nl"
  · refine ⟨?_, ?_, ?_⟩
    · rw [hmem, htrl]; simp [hl]
    · rw [hmem, htrl]; simp [hl]
    · intro hnone
      rw [hnone] at hl
      exact absurd hl (by decide)
  · refine ⟨?_, ?_, ?_⟩
    · rw [hmem, htrl]; simp [hl]
    · rw [hmem, htrl]; simp [hl]
    · intro hnone
      exact ⟨by rw [hnone]; rfl, by rw [hmem, htrl]; simp [hl]⟩

/-- C6 (witness): the theorem applied to a run whose binding carries the
upper-case code "NL": the comparison is case-insensitive and the file
goes to the output destination. -/
theorem routing_by_language_witness :
    (Action.upload Dest.outputFolder ∈ (process_video envNL).2.2) ↔
      pyLower (effectiveLang envNL.langCode) = "nl" :=
  (routing_by_language envNL
    ⟨rfl, rfl, rfl, rfl, rfl, ⟨seg0, [], rfl⟩, rfl, rfl, rfl, rfl, rfl⟩).1

/-- C7 (counterexample): on a run whose write into the already-opened
subtitle file raises (`envC7`), `transcribe_video` returns `None`, so
`process_video` calls `_cleanup_files(video_path, None)` — the partial
`.srt` left in the cache is never targeted and survives even though its
removal would have succeeded.  The generated-subtitle part of the
unconditional-deletion claim is false of the code. -/
theorem cleanup_srt_leak_counterexample :
    envC7.removeSrtOk = true ∧
    (process_video envC7).1 = false ∧
    (process_video envC7).2.1.srtCache = true ∧
    ¬(∀ env : Env, env.removeSrtOk = true →
        (process_video env).2.1.srtCache = false) := by
  refine ⟨by decide, by decide, by decide, fun hall => absurd (hall envC7 (by decide)) (by decide)⟩

/-- C7 (amended): the downloaded video and the extracted audio are
deleted on every exit path (absent whenever the corresponding
`os.remove` succeeds); the cached subtitle is deleted whenever
transcription returned its path — in particular on every run without a
mid-write failure — but a partial subtitle left by a write failure
after `open` is not (the counterexample); the cleanup never targets the
archived copy, whose existence is exactly what the body produced; and
removal failures are absorbed: the invocation's returned outcome is
unchanged under any combination of removal failures. -/
theorem cleanup_amended (env : Env) :
    (env.removeVideoOk = true → (process_video env).2.1.video = false) ∧
    (env.removeAudioOk = true → (process_video env).2.1.audio = false) ∧
    (env.removeSrtOk = true → env.writeMode ≠ WriteMode.failWrite →
      (process_video env).2.1.srtCache = false) ∧
    (env.removeSrtOk = true → (processBody env).srtSet = true →
      (process_video env).2.1.srtCache = false) ∧
    ((process_video env).2.1.archiveCopy = (processBody env).fs.archiveCopy) ∧
    (∀ x ∈ (process_video env).2.2, x ≠ Action.removeAttempt FileId.archiveCopy) ∧
    (∀ b1 b2 b3 : Bool,
      (process_video { env with removeVideoOk := b1, removeAudioOk := b2, removeSrtOk := b3 }).1 = (process_video env).1) := by
  have hfs : (process_video env).2.1 =
      (_cleanup_files env (processBody env).fs (processBody env).srtSet).1 := rfl
  have htr : (process_video env).2.2 = (processBody env).tr ++
      (_cleanup_files env (processBody env).fs (processBody env).srtSet).2 := rfl
  refine ⟨?_, ?_, ?_, ?_, ?_, ?_, ?_⟩
  · intro h; rw [hfs]; exact cf_video env _ _ h
  · intro h; rw [hfs, cf_audio]; exact pb_audio env h
  · intro h hwm; rw [hfs]; exact cf_srt env _ _ h (pb_srt_inv env hwm)
  · intro h hset; rw [hfs]; exact cf_srt env _ _ h (fun _ => hset)
  · rw [hfs, cf_archive]
  · intro x hx
    rw [htr] at hx
    rcases List.mem_append.mp hx with hm | hm
    · rcases pb_tr_sub env x hm with h | h | h | h | h
      · simp [h]
      · exact tv_no_remove_archive env _ x h
      · simp [h]
      · simp [h]
      · simp [h]
    · rcases cf_actions env _ _ _ hm with h | h <;> simp [h]
  · intro b1 b2 b3
    show (processBody { env with removeVideoOk := b1, removeAudioOk := b2, removeSrtOk := b3 }).ret = (processBody env).ret
    exact pb_ret_indep env b1 b2 b3

/-- C7 (witness): the amended theorem applied at the all-success run
`envA`, discharging each hypothesis. -/
theorem cleanup_amended_witness :
    (process_video envA).2.1.video = false ∧
    (process_video envA).2.1.audio = false ∧
    (process_video envA).2.1.srtCache = false :=
  ⟨(cleanup_amended envA).1 rfl,
   (cleanup_amended envA).2.1 rfl,
   (cleanup_amended envA).2.2.1 rfl (by decide)⟩

/-- C8: called on an empty segment sequence, `_write_srt` returns the
failure flag and creates no output file, whether or not the file system
would have let it open one. -/
theorem write_srt_empty :
    ∀ mode : WriteMode, _write_srt [] mode = (WriteRun.returned false, none) := by
  intro mode; rfl

/-- C9: once the model is invoked, the adapter validates the result: a
raised invocation, a non-dict result, a dict without a `segments` key,
or an empty segment list each yield a failure outcome with nothing ever
serialized; a non-empty segment list is handed to the serializer
verbatim (empty-text segments are NOT dropped during recognition). -/
theorem recognizer_validation (env : Env)
    (h1 : env.videoReadable = true) (h2 : env.audioWriteOk = true)
    (h3 : env.modelLoaded = true) (h4 : env.prepareOk = true) :
    ((env.modelOutcome = ModelOutcome.raises ∨
      env.modelOutcome = ModelOutcome.notDict ∨
      env.modelOutcome = ModelOutcome.noSegmentsField ∨
      env.modelOutcome = ModelOutcome.returns []) →
      (transcribe_video env ⟨true, false, false, false⟩).1 = false ∧
      ∀ l, Action.serialize l ∉ (transcribe_video env ⟨true, false, false, false⟩).2.2) ∧
    ∀ segs, env.modelOutcome = ModelOutcome.returns segs → segs ≠ [] →
      Action.serialize segs ∈ (transcribe_video env ⟨true, false, false, false⟩).2.2 := by
  constructor
  · intro hmo
    have htb := tb_invalid env ⟨true, false, false, false⟩ rfl h1 h2 h3 h4 hmo
    constructor
    · show (transcribeBody env ⟨true, false, false, false⟩).ok = false
      rw [htb]
    · intro l hl
      rw [tv_eq] at hl
      rcases List.mem_append.mp hl with hm | hm
      · rw [congrArg TBody.tr htb] at hm
        simp at hm
      · exact Action.noConfusion (ac_actions env _ _ _ hm)
  · intro segs hmo hne
    have htrr := tb_tr_returns env ⟨true, false, false, false⟩ rfl h1 h2 h3 h4 segs hmo hne
    rw [tv_eq]
    exact List.mem_append.mpr (Or.inl (by rw [htrr]; simp))

/-- C9 (witness): the theorem applied both to a raising invocation
(failure, nothing serialized) and to a successful one-segment result
(serialized verbatim). -/
theorem recognizer_validation_witness :
    (transcribe_video envMalformed ⟨true, false, false, false⟩).1 = false ∧
    Action.serialize [seg0] ∈ (transcribe_video envA ⟨true, false, false, false⟩).2.2 :=
  ⟨((recognizer_validation envMalformed rfl rfl rfl rfl).1 (Or.inl rfl)).1,
   (recognizer_validation envA rfl rfl rfl rfl).2 [seg0] rfl (by simp)⟩

/-- C10: on a non-empty segment sequence whose every text strips to the
empty string, `_write_srt` succeeds: it returns `true` and creates an
output file with zero entries. -/
theorem write_srt_all_empty_text (segments : List Segment) (h1 : segments ≠ [])
    (h2 : ∀ s ∈ segments, pyStrip s.text = "") :
    _write_srt segments WriteMode.ok = (WriteRun.returned true, some []) := by
  rw [_write_srt, if_neg h1]
  simp [srtEntries, srtEntriesAux_eq_nil segments h2 1]

/-- C10 (witness): the theorem applied at a single whitespace-only
segment. -/
theorem write_srt_all_empty_text_witness :
    ([⟨0, 1, "  "⟩] : List Segment) ≠ [] ∧
    _write_srt [⟨0, 1, "  "⟩] WriteMode.ok = (WriteRun.returned true, some []) :=
  ⟨by decide, write_srt_all_empty_text [⟨0, 1, "  "⟩] (by decide) (by decide)⟩

end ATGT
